import Mathlib

/-!
Verification of the FLAN-summarizer training harness.

Shallow embedding of the two Python modules `src/data.py` (dataset adapter
`CustomDataset`) and `src/lightning_base.py` (training-module configurator
`BaseTransformer`, argument parsers, `generic_train`).  Strings are modelled
as `List Char`, Python float hyperparameters as `ℚ`, object attribute sets
as functions `String → Option _`, and Python exceptions (assertions,
attribute errors, key errors) as `Except String _` / `Option _`.
-/

namespace FlanSum

/-! ### Dataset adapter: text cleaning (`src/data.py`, `clean_text`) -/

/-- Python whitespace set used by `str.strip()` (ASCII portion). -/
def isPySpace (c : Char) : Bool :=
  c == ' ' || c == '\t' || c == '\n' || c == '\r' || c == Char.ofNat 11 || c == Char.ofNat 12

/-- Python `str.strip()`: drop leading and trailing whitespace. -/
def pyStrip (l : List Char) : List Char :=
  ((l.dropWhile isPySpace).reverse.dropWhile isPySpace).reverse

/-- Python `str.replace("``", "")`: remove non-overlapping doubled-backtick
pairs, scanning left to right. -/
def btReplace : List Char → List Char
  | [] => []
  | [c] => [c]
  | c1 :: c2 :: t =>
    if c1 == '`' && c2 == '`' then btReplace t else c1 :: btReplace (c2 :: t)

/-- `CustomDataset.clean_text` (src/data.py lines 28-36): strip, then remove
newlines, then doubled backticks, then double quotes, in that order. -/
def clean_text (l : List Char) : List Char :=
  List.filter (fun c => !(c == '"'))
    (btReplace (List.filter (fun c => !(c == '\n')) (pyStrip l)))

/-- Does the string contain an adjacent pair of backticks? -/
def hasDoubledBacktick : List Char → Bool
  | [] => false
  | [_] => false
  | c1 :: c2 :: t => (c1 == '`' && c2 == '`') || hasDoubledBacktick (c2 :: t)

/-- Characters surviving `btReplace` come from the input. -/
theorem mem_btReplace : ∀ (l : List Char) (c : Char), c ∈ btReplace l → c ∈ l := by
  intro l
  induction l using btReplace.induct with
  | case1 => intro c h; simp [btReplace] at h
  | case2 c0 => intro c h; simpa [btReplace] using h
  | case3 c1 c2 t hbt ih =>
    intro c h
    simp only [btReplace, hbt, if_true] at h
    have := ih c h
    simp [this]
  | case4 c1 c2 t hbt ih =>
    intro c h
    simp only [btReplace, hbt, if_false, Bool.false_eq_true] at h
    rcases List.mem_cons.mp h with h1 | h2
    · simp [h1]
    · have := ih c h2
      rcases List.mem_cons.mp this with h3 | h4
      · simp [h3]
      · simp [h4]

/-- C1 (counterexample): on the input `"`"` "` (which contains double-quote
characters), `clean_text` returns a string that still contains a
doubled-backtick sequence (created by the later quote removal) and that has
trailing whitespace (exposed by the quote removal, which runs after the
strip).  This refutes the claim that the result has all those character
sequences removed and is trimmed. -/
theorem c1_counterexample :
    ('"' ∈ ['"', '`', '"', '`', ' ', '"']) ∧
    hasDoubledBacktick (clean_text ['"', '`', '"', '`', ' ', '"']) = true ∧
    pyStrip (clean_text ['"', '`', '"', '`', ' ', '"']) ≠
      clean_text ['"', '`', '"', '`', ' ', '"'] := by
  refine ⟨by decide, by decide, by decide⟩

/-- C1 (amended): `clean_text` strips surrounding whitespace first and then
removes, in order, all newline characters, left-to-right non-overlapping
doubled-backtick pairs, and all double-quote characters.  Consequently the
result never contains a newline or a double-quote character; it may however
contain doubled-backtick sequences created by the quote removal, and
leading/trailing whitespace exposed by the removals. -/
theorem c1_amended (l : List Char) :
    '\n' ∉ clean_text l ∧ '"' ∉ clean_text l := by
  constructor
  · intro h
    have h1 : '\n' ∈ btReplace (List.filter (fun c => !(c == '\n')) (pyStrip l)) :=
      (List.mem_filter.mp h).1
    have h2 := mem_btReplace _ _ h1
    have h3 := (List.mem_filter.mp h2).2
    simp at h3
  · intro h
    have h3 := (List.mem_filter.mp h).2
    simp at h3

/-- C1 witness: the amended theorem evaluated at the counterexample input. -/
theorem c1_witness :
    '\n' ∉ clean_text ['"', '`', '"', '`', ' ', '"'] ∧
    '"' ∉ clean_text ['"', '`', '"', '`', ' ', '"'] :=
  c1_amended ['"', '`', '"', '`', ' ', '"']

/-! ### Dataset adapter: tokenization (`src/data.py`, `convert_to_features`,
`__getitem__`) -/

/-- A tokenizer, abstracted: `encode text maxLength` yields the token-id
sequence and the attention mask that `batch_encode_plus` would produce for a
single text at the given `max_length` (with `padding="max_length"` and
`truncation=True` requested, as in the source). -/
structure TokenizerM where
  encode : List Char → Nat → List Nat × List Nat

/-- The batch produced by `tokenizer.batch_encode_plus(texts, max_length=L,
padding="max_length", truncation=True, return_tensors="pt")`: one row of ids
and one row of mask per text. -/
structure BatchEncodingM where
  input_ids : List (List Nat)
  attention_mask : List (List Nat)

def batch_encode_plus (tk : TokenizerM) (texts : List (List Char)) (maxLength : Nat) :
    BatchEncodingM :=
  ⟨texts.map (fun t => (tk.encode t maxLength).1),
   texts.map (fun t => (tk.encode t maxLength).2)⟩

/-- `torch.Tensor.squeeze()` on a `[1, L]` batch tensor: collapse the batch
dimension. -/
def squeezeRow (rows : List (List Nat)) : List Nat := rows.flatten

/-- `CustomDataset` after construction (the fields `__getitem__` reads). -/
structure CustomDatasetM where
  text : List (List Char)
  headline : List (List Char)
  title : List (List Char)
  input_length : Nat
  output_length : Nat
  tokenizer : TokenizerM

/-- `CustomDataset.convert_to_features` (src/data.py lines 38-63): clean both
texts, then encode the source at `input_length` and the target at
`output_length`. -/
def convert_to_features (ds : CustomDatasetM) (text headline : List Char) :
    BatchEncodingM × BatchEncodingM :=
  (batch_encode_plus ds.tokenizer [clean_text text] ds.input_length,
   batch_encode_plus ds.tokenizer [clean_text headline] ds.output_length)

/-- The dictionary returned by `CustomDataset.__getitem__`. -/
structure ItemM where
  input_ids : List Nat
  attention_mask : List Nat
  labels : List Nat
  target_mask : List Nat

/-- `CustomDataset.__getitem__` (src/data.py lines 65-81). -/
def getitem (ds : CustomDatasetM) (index : Nat) : ItemM :=
  let st := convert_to_features ds (ds.text.getD index []) (ds.headline.getD index [])
  ⟨squeezeRow st.1.input_ids, squeezeRow st.1.attention_mask,
   squeezeRow st.2.input_ids, squeezeRow st.2.attention_mask⟩

/-- The tokenizer pads to `max_length` and truncates beyond it: every encoded
row has exactly `max_length` elements. -/
def padsTruncates (tk : TokenizerM) : Prop :=
  ∀ (s : List Char) (L : Nat), (tk.encode s L).1.length = L ∧ (tk.encode s L).2.length = L

/-- C2: if the tokenizer pads to `max_length` and truncates beyond it, then
for every dataset and index the item returned by `__getitem__` has
`input_ids` and `attention_mask` of exactly `input_length` elements and
`labels` and `target_mask` of exactly `output_length` elements. -/
theorem c2_getitem_lengths (ds : CustomDatasetM) (index : Nat)
    (h : padsTruncates ds.tokenizer) :
    (getitem ds index).input_ids.length = ds.input_length ∧
    (getitem ds index).attention_mask.length = ds.input_length ∧
    (getitem ds index).labels.length = ds.output_length ∧
    (getitem ds index).target_mask.length = ds.output_length := by
  have hsrc := h (clean_text (ds.text.getD index [])) ds.input_length
  have htgt := h (clean_text (ds.headline.getD index [])) ds.output_length
  simp only [getitem, convert_to_features, batch_encode_plus, squeezeRow,
    List.map_cons, List.map_nil, List.flatten]
  simp only [List.getD, List.get?_eq_getElem?] at hsrc htgt
  simp [hsrc.1, hsrc.2, htgt.1, htgt.2]

/-- A concrete tokenizer satisfying the `padsTruncates` hypothesis: truncate
the character codes to `L` and pad with zeros. -/
def exTokenizer : TokenizerM :=
  ⟨fun s L => ((s.map Char.toNat).take L ++ List.replicate (L - s.length) 0,
               (List.replicate (min s.length L) 1) ++ List.replicate (L - s.length) 0)⟩

theorem exTokenizer_padsTruncates : padsTruncates exTokenizer := by
  intro s L
  constructor
  · simp [exTokenizer]
    omega
  · simp [exTokenizer]
    omega

/-- An example dataset for the C2 witness. -/
def exDataset : CustomDatasetM :=
  ⟨[['h', 'i']], [['y', 'o']], [['t']], 5, 3, exTokenizer⟩

/-- C2 witness: the hypothesis holds for a concrete truncating/padding
tokenizer and the length invariant follows at a concrete dataset and index. -/
theorem c2_witness :
    padsTruncates exDataset.tokenizer ∧
    ((getitem exDataset 0).input_ids.length = 5 ∧
     (getitem exDataset 0).attention_mask.length = 5 ∧
     (getitem exDataset 0).labels.length = 3 ∧
     (getitem exDataset 0).target_mask.length = 3) :=
  ⟨exTokenizer_padsTruncates, c2_getitem_lengths exDataset 0 exTokenizer_padsTruncates⟩

/-! ### `BaseTransformer.__init__`: target-length assertions
(`src/lightning_base.py` lines 114-124) -/

/-- The two assertions on `self.target_lens` at the end of
`BaseTransformer.__init__`: `train ≤ val` and `train ≤ test`.  Construction
survives them exactly when this returns `true`. -/
def targetLensOk (train val test : Nat) : Bool :=
  decide (train ≤ val) && decide (train ≤ test)

/-- C3: construction fails on the target-length assertions iff the training
maximum target length exceeds the validation or the test maximum target
length; in particular `{train := 50, val := 40, test := 100}` fails and
`{train := 50, val := 60, test := 100}` succeeds. -/
theorem c3_target_lens :
    (∀ train val test : Nat,
      targetLensOk train val test = false ↔ (val < train ∨ test < train)) ∧
    targetLensOk 50 40 100 = false ∧
    targetLensOk 50 60 100 = true := by
  refine ⟨fun train val test => ?_, by decide, by decide⟩
  simp [targetLensOk]
  omega

/-! ### `BaseTransformer.configure_optimizers`: parameter grouping and
optimizer choice (`src/lightning_base.py` lines 136-172) -/

/-- Is `needle` a contiguous substring of `hay` (Python `needle in hay`)?  -/
def containsSub (hay needle : List Char) : Bool :=
  match hay with
  | [] => needle.isEmpty
  | _ :: t => needle.isPrefixOf hay || containsSub t needle

/-- The fixed exclusion list `no_decay` (src/lightning_base.py line 139). -/
def no_decay : List String := ["bias", "LayerNorm.weight"]

/-- `any(nd in n for nd in no_decay)`: the parameter name matches the
exclusion list. -/
def isNoDecayName (n : String) : Bool :=
  no_decay.any (fun nd => containsSub n.toList nd.toList)

/-- One entry of `optimizer_grouped_parameters`: the selected parameters and
the weight decay applied to them.  Parameters are modelled as the
`(name, value)` pairs produced by `model.named_parameters()`, with values as
opaque ids. -/
structure ParamGroup where
  params : List (String × Nat)
  weight_decay : ℚ

/-- Entries whose name matches no exclusion substring (first group). -/
def decayEntries (named : List (String × Nat)) : List (String × Nat) :=
  named.filter (fun nv => !(isNoDecayName nv.1))

/-- Entries whose name matches an exclusion substring (second group). -/
def noDecayEntries (named : List (String × Nat)) : List (String × Nat) :=
  named.filter (fun nv => isNoDecayName nv.1)

/-- `optimizer_grouped_parameters` (src/lightning_base.py lines 140-157):
the decayed group with the configured weight decay, then the excluded group
with weight decay `0`. -/
def optimizer_grouped_parameters (named : List (String × Nat)) (weightDecay : ℚ) :
    List ParamGroup :=
  [⟨decayEntries named, weightDecay⟩, ⟨noDecayEntries named, 0⟩]

/-- C4: `configure_optimizers` partitions the named parameters into exactly
two groups by substring match against `["bias", "LayerNorm.weight"]`: an
entry is in the decayed group (carrying the configured weight decay) iff its
name matches no exclusion substring, and in the zero-weight-decay group iff
it matches one; no entry is in both.  `"encoder.bias"` matches the exclusion
list and `"encoder.weight"` does not. -/
theorem c4_param_groups (named : List (String × Nat)) (weightDecay : ℚ)
    (nv : String × Nat) :
    (optimizer_grouped_parameters named weightDecay =
      [⟨decayEntries named, weightDecay⟩, ⟨noDecayEntries named, 0⟩]) ∧
    (nv ∈ decayEntries named ↔ nv ∈ named ∧ isNoDecayName nv.1 = false) ∧
    (nv ∈ noDecayEntries named ↔ nv ∈ named ∧ isNoDecayName nv.1 = true) ∧
    ¬(nv ∈ decayEntries named ∧ nv ∈ noDecayEntries named) ∧
    isNoDecayName "encoder.bias" = true ∧
    isNoDecayName "encoder.weight" = false := by
  refine ⟨rfl, ?_, ?_, ?_, by decide, by decide⟩
  · simp [decayEntries, List.mem_filter]
  · simp [noDecayEntries, List.mem_filter]
  · rintro ⟨h1, h2⟩
    have e1 := (List.mem_filter.mp h1).2
    have e2 := (List.mem_filter.mp h2).2
    simp at e1 e2
    rw [e1] at e2
    exact Bool.false_ne_true e2

/-- C4 witness: the characterization applied to a concrete parameter list,
placing `"encoder.bias"` in the zero-weight-decay group and
`"encoder.weight"` in the weight-decay group. -/
theorem c4_witness :
    ("encoder.bias", 7) ∈ noDecayEntries [("encoder.bias", 7), ("encoder.weight", 8)] ∧
    ("encoder.weight", 8) ∈ decayEntries [("encoder.bias", 7), ("encoder.weight", 8)] := by
  constructor
  · exact ((c4_param_groups [("encoder.bias", 7), ("encoder.weight", 8)] 0
      ("encoder.bias", 7)).2.2.1).mpr ⟨by decide, by decide⟩
  · exact ((c4_param_groups [("encoder.bias", 7), ("encoder.weight", 8)] 0
      ("encoder.weight", 8)).2.1).mpr ⟨by decide, by decide⟩

/-- The optimizer object built by `configure_optimizers`, recording exactly
the arguments the source passes to each constructor: `Adafactor(groups,
lr=learning_rate, scale_parameter=False, relative_step=False)` or
`AdamW(groups, lr=learning_rate, eps=adam_epsilon)`. -/
inductive OptimizerM where
  | adafactorOpt (groups : List ParamGroup) (lr : ℚ)
      (scale_parameter relative_step : Bool)
  | adamWOpt (groups : List ParamGroup) (lr eps : ℚ)

/-- The optimizer-selection half of `configure_optimizers`
(src/lightning_base.py lines 158-172). -/
def configureOptimizerChoice (adafactorFlag : Bool) (groups : List ParamGroup)
    (learning_rate adam_epsilon : ℚ) : OptimizerM :=
  if adafactorFlag then
    OptimizerM.adafactorOpt groups learning_rate false false
  else
    OptimizerM.adamWOpt groups learning_rate adam_epsilon

/-- C7 (counterexample): with the adafactor flag set, the constructed
optimizer is identical for two different configured epsilons — the Adafactor
branch never passes `adam_epsilon` to the constructor, refuting "in both
cases the optimizer is constructed using ... the configured epsilon". -/
theorem c7_counterexample :
    configureOptimizerChoice true [] 5 1 = configureOptimizerChoice true [] 5 2 ∧
    (1 : ℚ) ≠ 2 := by
  refine ⟨rfl, by norm_num⟩

/-- C7 (amended): `configure_optimizers` builds exactly one of two optimizer
kinds selected by the adafactor flag; both are constructed with the
configured learning rate, the AdamW branch additionally with the configured
epsilon, while the Adafactor branch passes `scale_parameter=False` and
`relative_step=False` and does not pass the configured epsilon. -/
theorem c7_optimizer_amended (groups : List ParamGroup) (lr eps : ℚ) :
    configureOptimizerChoice true groups lr eps =
      OptimizerM.adafactorOpt groups lr false false ∧
    configureOptimizerChoice false groups lr eps =
      OptimizerM.adamWOpt groups lr eps := by
  exact ⟨rfl, rfl⟩

/-! ### `BaseTransformer.__init__`: config overrides
(`src/lightning_base.py` lines 83-94) -/

/-- The fixed override names iterated by `__init__`. -/
def extra_model_params : List String :=
  ["encoder_layerdrop", "decoder_layerdrop", "dropout", "attention_dropout"]

/-- Python truthiness of `getattr(self.hparams, p, None)`: the attribute is
missing or `None` (modelled as `none`) or equal to `0.0` iff the value is
falsy. -/
def truthy (v : Option ℚ) : Bool :=
  match v with
  | none => false
  | some x => decide (x ≠ 0)

/-- `setattr(config, p, v)` on a config whose attributes are modelled as a
partial map. -/
def setAttr (cfg : String → Option ℚ) (p : String) (v : ℚ) : String → Option ℚ :=
  fun a => if a = p then some v else cfg a

/-- The override loop of `BaseTransformer.__init__`: for each name `p`, if
`getattr(self.hparams, p, None)` is truthy then assert `hasattr(self.config,
p)` (modelled as an error carrying `p`) and set the attribute; otherwise
leave the config untouched. -/
def applyOverrides (hp : String → Option ℚ) :
    List String → (String → Option ℚ) → Except String (String → Option ℚ)
  | [], cfg => Except.ok cfg
  | p :: ps, cfg =>
    if truthy (hp p) then
      if (cfg p).isSome then applyOverrides hp ps (setAttr cfg p ((hp p).getD 0))
      else Except.error p
    else applyOverrides hp ps cfg

/-- The override phase of `__init__` over the four fixed names. -/
def initExtraOverrides (hp : String → Option ℚ) (cfg : String → Option ℚ) :
    Except String (String → Option ℚ) :=
  applyOverrides hp extra_model_params cfg

/-- Hyperparameters supplying `dropout = 0.0` and nothing else. -/
def exZeroHparams : String → Option ℚ :=
  fun p => if p = "dropout" then some 0 else none

/-- A config exposing no attribute at all. -/
def exEmptyConfig : String → Option ℚ := fun _ => none

/-- C5 (counterexample): the `dropout` override is present in the
hyperparameter set with value `0.0` and the config lacks the attribute, yet
construction does not fail: Python truthiness skips a zero-valued override
before the `hasattr` assertion is reached.  This refutes "when an override
is present but the config lacks the attribute, construction fails fast". -/
theorem c5_counterexample :
    exZeroHparams "dropout" = some 0 ∧
    exEmptyConfig "dropout" = none ∧
    initExtraOverrides exZeroHparams exEmptyConfig = Except.ok exEmptyConfig :=
  ⟨rfl, rfl, rfl⟩

theorem truthy_some_getD {v : Option ℚ} (h : truthy v = true) : some (v.getD 0) = v := by
  cases v with
  | none => simp [truthy] at h
  | some x => rfl

theorem setAttr_isSome {cfg : String → Option ℚ} {p : String} {v : ℚ}
    (h : (cfg p).isSome = true) (a : String) :
    ((setAttr cfg p v) a).isSome = (cfg a).isSome := by
  by_cases hap : a = p
  · subst hap; simp [setAttr, h]
  · simp [setAttr, hap]

theorem applyOverrides_ok_iff (hp : String → Option ℚ) :
    ∀ (ps : List String) (cfg : String → Option ℚ),
      (applyOverrides hp ps cfg).isOk = true ↔
        ∀ p ∈ ps, truthy (hp p) = true → (cfg p).isSome = true := by
  intro ps
  induction ps with
  | nil => intro cfg; simp [applyOverrides, Except.isOk, Except.toBool]
  | cons p ps ih =>
    intro cfg
    by_cases htr : truthy (hp p) = true
    · by_cases hc : (cfg p).isSome = true
      · rw [show applyOverrides hp (p :: ps) cfg =
            applyOverrides hp ps (setAttr cfg p ((hp p).getD 0)) by
          simp [applyOverrides, htr, hc]]
        rw [ih]
        constructor
        · intro h q hq hqt
          rcases List.mem_cons.mp hq with h1 | h2
          · subst h1; exact hc
          · rw [← setAttr_isSome (v := (hp p).getD 0) hc q]; exact h q h2 hqt
        · intro h q hq hqt
          rw [setAttr_isSome hc q]
          exact h q (List.mem_cons_of_mem p hq) hqt
      · rw [show applyOverrides hp (p :: ps) cfg = Except.error p by
          simp [applyOverrides, htr, hc]]
        simp only [Except.isOk, Except.toBool]
        constructor
        · intro h; exact absurd h (by simp)
        · intro h; exact absurd (h p (List.mem_cons_self p ps) htr) hc
    · rw [show applyOverrides hp (p :: ps) cfg = applyOverrides hp ps cfg by
        simp [applyOverrides, htr]]
      rw [ih]
      constructor
      · intro h q hq hqt
        rcases List.mem_cons.mp hq with h1 | h2
        · subst h1; exact absurd hqt htr
        · exact h q h2 hqt
      · intro h q hq hqt
        exact h q (List.mem_cons_of_mem p hq) hqt

theorem applyOverrides_result (hp : String → Option ℚ) :
    ∀ (ps : List String) (cfg cfg2 : String → Option ℚ),
      applyOverrides hp ps cfg = Except.ok cfg2 →
      ∀ a, cfg2 a = if a ∈ ps ∧ truthy (hp a) = true then hp a else cfg a := by
  intro ps
  induction ps with
  | nil =>
    intro cfg cfg2 h a
    simp only [applyOverrides, Except.ok.injEq] at h
    simp [← h]
  | cons p ps ih =>
    intro cfg cfg2 h a
    by_cases htr : truthy (hp p) = true
    · by_cases hc : (cfg p).isSome = true
      · rw [show applyOverrides hp (p :: ps) cfg =
            applyOverrides hp ps (setAttr cfg p ((hp p).getD 0)) by
          simp [applyOverrides, htr, hc]] at h
        have ha := ih (setAttr cfg p ((hp p).getD 0)) cfg2 h a
        by_cases hmem : a ∈ ps ∧ truthy (hp a) = true
        · rw [ha, if_pos hmem, if_pos ⟨List.mem_cons_of_mem p hmem.1, hmem.2⟩]
        · rw [ha, if_neg hmem]
          by_cases hap : a = p
          · subst hap
            rw [if_pos ⟨List.mem_cons_self a ps, htr⟩]
            simp only [setAttr, if_pos rfl]
            exact truthy_some_getD htr
          · rw [if_neg (by
              rintro ⟨hmem2, htr2⟩
              rcases List.mem_cons.mp hmem2 with h1 | h2
              · exact hap h1
              · exact hmem ⟨h2, htr2⟩)]
            simp [setAttr, hap]
      · rw [show applyOverrides hp (p :: ps) cfg = Except.error p by
          simp [applyOverrides, htr, hc]] at h
        exact absurd h (by simp)
    · rw [show applyOverrides hp (p :: ps) cfg = applyOverrides hp ps cfg by
        simp [applyOverrides, htr]] at h
      have ha := ih cfg cfg2 h a
      by_cases hmem : a ∈ ps ∧ truthy (hp a) = true
      · rw [ha, if_pos hmem, if_pos ⟨List.mem_cons_of_mem p hmem.1, hmem.2⟩]
      · rw [ha, if_neg hmem]
        rw [if_neg (by
          rintro ⟨hmem2, htr2⟩
          rcases List.mem_cons.mp hmem2 with h1 | h2
          · subst h1; exact htr htr2
          · exact hmem ⟨h2, htr2⟩)]

/-- C5 (amended): for each of the four override names, `__init__` applies
the override to the config iff the override is truthy (present, non-`None`
and non-zero) in the hyperparameter set and the config exposes the
attribute; the override phase succeeds iff every truthy override has a
matching config attribute (so a truthy override without one fails fast,
assertion-style), and every attribute that is not a truthy override is left
unchanged.  A present override equal to `0.0` is falsy and is silently
skipped, not asserted. -/
theorem c5_overrides_amended (hp cfg : String → Option ℚ) :
    ((initExtraOverrides hp cfg).isOk = true ↔
      ∀ p ∈ extra_model_params, truthy (hp p) = true → (cfg p).isSome = true) ∧
    (∀ cfg2, initExtraOverrides hp cfg = Except.ok cfg2 →
      ∀ a, cfg2 a =
        if a ∈ extra_model_params ∧ truthy (hp a) = true then hp a else cfg a) :=
  ⟨applyOverrides_ok_iff hp extra_model_params cfg,
   fun cfg2 h a => applyOverrides_result hp extra_model_params cfg cfg2 h a⟩

/-- Hyperparameters supplying a truthy `dropout = 3` and nothing else. -/
def exDropoutHparams : String → Option ℚ :=
  fun p => if p = "dropout" then some 3 else none

/-- A config exposing only a `dropout` attribute, initially `0`. -/
def exDropoutConfig : String → Option ℚ :=
  fun a => if a = "dropout" then some 0 else none

/-- C5 witness: the amended theorem applied at concrete hyperparameters and
config, discharging the success hypothesis by evaluation: the truthy
`dropout` override is written into the config and an unrelated attribute is
unchanged. -/
theorem c5_witness :
    (setAttr exDropoutConfig "dropout" ((exDropoutHparams "dropout").getD 0)) "dropout" =
      exDropoutHparams "dropout" ∧
    (setAttr exDropoutConfig "dropout" ((exDropoutHparams "dropout").getD 0)) "vocab_size" =
      exDropoutConfig "vocab_size" := by
  have h := (c5_overrides_amended exDropoutHparams exDropoutConfig).2
    (setAttr exDropoutConfig "dropout" ((exDropoutHparams "dropout").getD 0)) (by rfl)
  constructor
  · exact (h "dropout").trans (if_pos ⟨by decide, by decide⟩)
  · exact (h "vocab_size").trans (if_neg (by decide))

/-! ### `BaseTransformer.get_lr_scheduler` and the scheduler registry
(`src/lightning_base.py` lines 42-47 and 126-134) -/

/-- The four schedule factory functions imported from
`transformers.optimization`, as opaque tags. -/
inductive SchedFactory where
  | linearWarmup
  | cosineWarmup
  | cosineRestartsWarmup
  | polynomialWarmup
deriving DecidableEq

/-- The fixed registry `arg_to_scheduler` (src/lightning_base.py lines
42-47). -/
def arg_to_scheduler : List (String × SchedFactory) :=
  [("linear", SchedFactory.linearWarmup),
   ("cosine", SchedFactory.cosineWarmup),
   ("cosine_w_restarts", SchedFactory.cosineRestartsWarmup),
   ("polynomial", SchedFactory.polynomialWarmup)]

/-- `arg_to_scheduler[kind]` as a partial lookup (a missing key is a
`KeyError`, modelled as `none`). -/
def schedulerLookup (kind : String) : Option SchedFactory :=
  (arg_to_scheduler.find? (fun kv => kv.1 == kind)).map (fun kv => kv.2)

/-- The schedule object: which factory was called and with which
arguments. -/
structure LRScheduleM where
  factory : SchedFactory
  optimizer : Nat
  num_warmup_steps : Nat
  num_training_steps : Nat

/-- The dictionary returned by `get_lr_scheduler`. -/
structure SchedulerDictM where
  scheduler : LRScheduleM
  interval : String
  frequency : Nat

/-- `BaseTransformer.get_lr_scheduler` (src/lightning_base.py lines
126-134): look the kind up in the registry, call the factory on the stored
optimizer, the configured warmup steps and the computed total steps, and
wrap it with interval `"step"` and frequency `1`. -/
def get_lr_scheduler (lr_scheduler : String) (opt warmup_steps total_steps : Nat) :
    Option SchedulerDictM :=
  (schedulerLookup lr_scheduler).map
    (fun f => ⟨⟨f, opt, warmup_steps, total_steps⟩, "step", 1⟩)

/-- C6: for each of the four registered kind strings, `get_lr_scheduler`
selects the registry factory for that key, constructs the schedule from the
stored optimizer, the configured warmup-step count and the computed total
training steps, and returns it with interval `"step"` and frequency `1`;
the registry maps the four keys to the four distinct factories. -/
theorem c6_scheduler (kind : String) (opt warmup total : Nat)
    (h : kind ∈ ["linear", "cosine", "cosine_w_restarts", "polynomial"]) :
    (∃ f, schedulerLookup kind = some f ∧
      get_lr_scheduler kind opt warmup total =
        some ⟨⟨f, opt, warmup, total⟩, "step", 1⟩) ∧
    schedulerLookup "linear" = some SchedFactory.linearWarmup ∧
    schedulerLookup "cosine" = some SchedFactory.cosineWarmup ∧
    schedulerLookup "cosine_w_restarts" = some SchedFactory.cosineRestartsWarmup ∧
    schedulerLookup "polynomial" = some SchedFactory.polynomialWarmup := by
  refine ⟨?_, rfl, rfl, rfl, rfl⟩
  simp only [List.mem_cons, List.not_mem_nil, or_false] at h
  rcases h with h | h | h | h <;> subst h <;> exact ⟨_, rfl, rfl⟩

/-- C6 witness: the theorem at kind `"cosine"` with concrete optimizer,
warmup and total-step values. -/
theorem c6_witness :
    ∃ f, schedulerLookup "cosine" = some f ∧
      get_lr_scheduler "cosine" 3 4 5 = some ⟨⟨f, 3, 4, 5⟩, "step", 1⟩ :=
  (c6_scheduler "cosine" 3 4 5 (by decide)).1

/-! ### `BaseTransformer.test_step` (`src/lightning_base.py` lines 178-179) -/

/-- The step interface of `BaseTransformer`: `validation_step` is supplied
by the subclass contract. -/
structure StepModule (Batch Result : Type) where
  validation_step : Batch → Nat → Result

/-- `BaseTransformer.test_step`: delegate to `validation_step`. -/
def test_step {Batch Result : Type} (m : StepModule Batch Result)
    (batch : Batch) (batch_nb : Nat) : Result :=
  m.validation_step batch batch_nb

/-- C8: for every batch and batch index, `test_step` returns exactly the
result of `validation_step` on the same arguments. -/
theorem c8_test_step {Batch Result : Type} (m : StepModule Batch Result)
    (batch : Batch) (batch_nb : Nat) :
    test_step m batch batch_nb = m.validation_step batch batch_nb :=
  rfl

/-! ### `CustomDataset.__init__` and the unassigned `self.dataset`
(`src/data.py` lines 6-23) -/

/-- The argument passed as `dataset`: exposes `text`, `headline`, `title`
columns and a `select` method. -/
structure RawDatasetM where
  text : List (List Char)
  headline : List (List Char)
  title : List (List Char)

/-- `dataset.select(list(range(0, n)))`: keep the first `n` rows. -/
def selectRange (d : RawDatasetM) (n : Nat) : RawDatasetM :=
  ⟨d.text.take n, d.headline.take n, d.title.take n⟩

/-- The attributes of a fully constructed `CustomDataset`. -/
structure CustomDatasetState where
  text : List (List Char)
  headline : List (List Char)
  title : List (List Char)
  dataset : Option RawDatasetM
  input_length : Nat
  output_length : Nat
  print_text : Bool

/-- Python truthiness of `num_samples` (`if num_samples:`): `None` and `0`
are falsy. -/
def truthyNat (v : Option Nat) : Bool :=
  match v with
  | none => false
  | some n => !(n == 0)

/-- `CustomDataset.__init__` (src/data.py lines 6-23): assign `self.text`,
`self.headline`, `self.title` from the argument; then, when `num_samples`
is truthy, evaluate `self.dataset.select(...)` — but no prior statement of
the constructor assigns `self.dataset`, so that read is an
`AttributeError`. -/
def customDatasetInit (dataset : RawDatasetM) (input_length output_length : Nat)
    (print_text : Bool) (num_samples : Option Nat) : Except String CustomDatasetState :=
  let text := dataset.text
  let headline := dataset.headline
  let title := dataset.title
  let selfDataset : Option RawDatasetM := none
  if truthyNat num_samples then
    match selfDataset with
    | some d =>
      Except.ok ⟨text, headline, title, some (selectRange d (num_samples.getD 0)),
        input_length, output_length, print_text⟩
    | none => Except.error "AttributeError: dataset"
  else
    Except.ok ⟨text, headline, title, selfDataset,
      input_length, output_length, print_text⟩

/-- C9: whenever `num_samples` is not `None` and nonzero, `CustomDataset`
construction reads the never-assigned attribute `self.dataset` and fails
with an `AttributeError`; it never successfully selects the first
`num_samples` examples (in particular, also when the sample count exceeds
the available examples). -/
theorem c9_init_fails (d : RawDatasetM) (il ol : Nat) (pt : Bool) (n : Nat)
    (h : n ≠ 0) :
    customDatasetInit d il ol pt (some n) = Except.error "AttributeError: dataset" := by
  simp [customDatasetInit, truthyNat, h]

/-- C9 witness: construction with `num_samples = 3` on a concrete dataset
fails with the attribute error. -/
theorem c9_witness :
    customDatasetInit ⟨[], [], []⟩ 1 2 false (some 3) =
      Except.error "AttributeError: dataset" :=
  c9_init_fails ⟨[], [], []⟩ 1 2 false 3 (by decide)

/-! ### `generic_train` and the argument parsers
(`src/lightning_base.py` lines 293-359 and 362-443) -/

/-- The attribute names (argparse `dest`s) defined on the namespace produced
by `add_generic_args` (lines 293-359) followed by
`BaseTransformer.add_model_specific_args` (lines 197-290). -/
def definedArgNames : List String :=
  ["output_dir", "fp16", "fp16_opt_level", "tpu_cores", "gradient_clip_val",
   "do_train", "do_predict", "accumulate_grad_batches", "seed", "data_dir",
   "logger_name", "wb_name", "wb_project", "wb_entity", "id",
   "resume_from_checkpoint", "monitor", "full_test", "save_path_for_test",
   "val_check_interval", "num_sanity_val_steps", "debug_mode",
   "model_name_or_path", "config_name", "tokenizer_name", "cache_dir",
   "encoder_layerdrop", "decoder_layerdrop", "dropout", "attention_dropout",
   "learning_rate", "lr_scheduler", "weight_decay", "adam_epsilon",
   "warmup_steps", "num_workers", "max_epochs", "train_batch_size",
   "eval_batch_size", "adafactor", "save_path", "hf_checkpoint",
   "load_checkpoint", "data_path", "deepspeed_stage_3", "eval_beams"]

/-- The namespace attributes `generic_train` reads, in source order, from
`args` / `model.hparams` (the same parsed namespace) before the external
trainer is constructed at line 437: `args.seed` (372),
`model.hparams.output_dir` (374), `args.val_metric` (379, checkpoint
callback), `accumulate_grad_batches` (393), `deepspeed_stage_3` (400),
`gradient_clip_val` (410), `val_check_interval` (411),
`num_sanity_val_steps` (412), `args.gpus` (413), `model.hparams.local`
(414), `resume_from_checkpoint` (420), `debug_mode` (422), `logger_name`
(426).  (The wandb block at 427-435 is conditional on `logger_name` and is
reached only after all of these.) -/
def genericTrainReads : List String :=
  ["seed", "output_dir", "val_metric", "accumulate_grad_batches",
   "deepspeed_stage_3", "gradient_clip_val", "val_check_interval",
   "num_sanity_val_steps", "gpus", "local", "resume_from_checkpoint",
   "debug_mode", "logger_name"]

/-- The first attribute in a read sequence missing from the namespace — the
attribute whose read raises `AttributeError`. -/
def firstMissing (has : String → Bool) : List String → Option String
  | [] => none
  | a :: rest => if has a then firstMissing has rest else some a

/-- `generic_train` up to the construction of the external trainer: it
performs the attribute reads of `genericTrainReads` in order and raises
`AttributeError` at the first missing one; only if all succeed is the
trainer constructed. -/
def generic_train (has : String → Bool) : Except String String :=
  match firstMissing has genericTrainReads with
  | some a => Except.error a
  | none => Except.ok "trainer"

/-- C10: on a namespace defined solely by `add_generic_args` and
`add_model_specific_args` — which define `monitor` but neither `val_metric`
nor `local` — `generic_train` fails with an `AttributeError` on
`args.val_metric` while building the checkpoint callback, before the
external trainer is ever constructed. -/
theorem c10_generic_train :
    generic_train (fun a => definedArgNames.contains a) = Except.error "val_metric" ∧
    definedArgNames.contains "monitor" = true ∧
    definedArgNames.contains "val_metric" = false ∧
    definedArgNames.contains "local" = false :=
  ⟨rfl, rfl, rfl, rfl⟩

end FlanSum
